import Mathlib

/-!
Verification development for the STVE sensor trust engine.

Shallow embedding of the diagnostic scorer (smart sensor diagnostic engine
v3.0), the maintenance ticket module and the sensor registry, with theorems
settling the specification claims.  Real numbers of the JavaScript source are
modelled as rationals; `parseFloat(x.toFixed(n))` is modelled as rounding to
`n` fractional digits; JavaScript `null` probe values are modelled as
`Option`, and the places where the source coerces `null` to `0` inside
arithmetic use `Option.getD 0`.  Human-readable `info`, `flags`, `label`
string details that no claim mentions are carried only where claims need
them.
-/

set_option maxRecDepth 4000

namespace STVE

/-- Source helper `mean` (trust engine): sum divided by length, `0` for an
empty list. -/
def mean (values : List ℚ) : ℚ :=
  if values.length = 0 then 0 else values.sum / values.length

/-- Source helper `linearSlope`: least-squares slope of values against their
indices, computed with centred indices; `0` for fewer than 3 values or a zero
denominator. -/
def linearSlope (values : List ℚ) : ℚ :=
  let n := values.length
  if n < 3 then 0
  else
    let xMean : ℚ := ((n : ℚ) - 1) / 2
    let yMean : ℚ := mean values
    let num : ℚ := (values.enum.map (fun q => ((q.1 : ℚ) - xMean) * (q.2 - yMean))).sum
    let den : ℚ := ((List.range n).map (fun i => ((i : ℚ) - xMean) ^ 2)).sum
    if den = 0 then 0 else num / den

/-- Model of JavaScript `parseFloat(x.toFixed(digits))`: round to the given
number of fractional digits. -/
def roundTo (digits : ℕ) (q : ℚ) : ℚ :=
  (round (q * 10 ^ digits) : ℚ) / 10 ^ digits

/-- Largest element of a list (source uses `Math.max(...history)`); the `0`
default is never reached on the paths where the source applies it. -/
def listMax : List ℚ → ℚ
  | [] => 0
  | x :: xs => xs.foldl max x

/-- Smallest element of a list (source uses `Math.min(...history)`). -/
def listMin : List ℚ → ℚ
  | [] => 0
  | x :: xs => xs.foldl min x

/-- The four measured probes. -/
inductive Param
  | moisture
  | temperature
  | ec
  | ph
deriving DecidableEq

/-- Source constant `ROOT_CAUSE`. -/
inductive RootCause
  | NORMAL
  | SPIKE
  | STATIC
  | DRIFT
  | ZONE_MISMATCH
  | WEATHER_MISMATCH
  | FIELD_EVENT
  | IMPOSSIBLE_VALUE
deriving DecidableEq

/-- Band levels used by the scorer (`normal`, `moderate`, `extreme`,
`static`, `drift`). -/
inductive Level
  | normal
  | moderate
  | extreme
  | static
  | drift
deriving DecidableEq

/-- A pair of thresholds (`normal`, `moderate`) from the configuration. -/
structure Band where
  normal : ℚ
  moderate : ℚ
deriving DecidableEq

/-- Source constant `TRUST_CONFIG.TEMPORAL_THRESHOLDS`. -/
def temporalThresholds : Param → Band
  | .moisture => ⟨25, 60⟩
  | .temperature => ⟨8, 15⟩
  | .ec => ⟨15, 30⟩
  | .ph => ⟨5, 10⟩

/-- Source constant `TRUST_CONFIG.STATIC_THRESHOLDS`. -/
def staticThresholds : Param → ℚ
  | .moisture => 0.5
  | .temperature => 0.2
  | .ec => 0.05
  | .ph => 0.05

/-- Source constant `TRUST_CONFIG.DRIFT_THRESHOLDS`. -/
def driftThresholds : Param → ℚ
  | .moisture => 0.8
  | .temperature => 0.3
  | .ec => 0.02
  | .ph => 0.05

/-- Source constant `TRUST_CONFIG.CROSS_THRESHOLDS`. -/
def crossThresholds : Param → Band
  | .moisture => ⟨25, 50⟩
  | .temperature => ⟨5, 10⟩
  | .ec => ⟨15, 30⟩
  | .ph => ⟨3, 6⟩

/-- Result of one scoring axis: score, resolved level and root cause (the
human-readable `info` string of the source is omitted). -/
structure AxisResult where
  score : ℚ
  level : Level
  cause : RootCause
deriving DecidableEq

/-- Source `computeTemporalScore` (trust engine v3.0, lines 154 to 186).
`TEMPORAL_SCORES` is `normal 1.0, moderate 0.6, extreme 0.1, static 0.2,
drift 0.4`. -/
def computeTemporalScore (param : Param) (newVal : ℚ) (history : List ℚ)
    (driftHistory : List ℚ) : AxisResult :=
  let thresh := temporalThresholds param
  if history.length < 2 then ⟨1, .normal, .NORMAL⟩
  else if listMax history - listMin history < staticThresholds param then
    ⟨0.2, .static, .STATIC⟩
  else if 5 ≤ driftHistory.length ∧ driftThresholds param < |linearSlope driftHistory| then
    ⟨0.4, .drift, .DRIFT⟩
  else if mean history = 0 then ⟨1, .normal, .NORMAL⟩
  else
    let changePct := |newVal - mean history| / |mean history| * 100
    if changePct ≤ thresh.normal then ⟨1, .normal, .NORMAL⟩
    else if changePct ≤ thresh.moderate then ⟨0.6, .moderate, .SPIKE⟩
    else ⟨0.1, .extreme, .SPIKE⟩

/-- Change percentage of one peer against its own history window, as computed
inside `computeCrossScore`: peers with fewer than two history values or a zero
history mean contribute `0`. -/
def peerChangePct (v : ℚ) (hist : List ℚ) : ℚ :=
  if hist.length < 2 then 0
  else if mean hist = 0 then 0
  else |v - mean hist| / |mean hist| * 100

/-- The `neighbourChanges` array of `computeCrossScore`: the source pairs the
history at index `i` with `zoneReadings[i]` (its `indexOf` on distinct array
references is positional).  Where the source would read past the end of
`zoneReadings` the model takes `0`; the claims are stated on aligned lists
where this default is never reached. -/
def neighbourChanges : List ℚ → List (List ℚ) → List ℚ
  | _, [] => []
  | zrs, hist :: rest => peerChangePct (zrs.headD 0) hist :: neighbourChanges zrs.tail rest

/-- Source `computeCrossScore` (trust engine v3.0, lines 194 to 228).
`CROSS_SCORES` is `normal 1.0, moderate 0.5, extreme 0.1`. -/
def computeCrossScore (param : Param) (val : ℚ) (zoneReadings : List ℚ)
    (zoneHistories : List (List ℚ)) : AxisResult :=
  let thresh := crossThresholds param
  if zoneReadings.length = 0 then ⟨1, .normal, .NORMAL⟩
  else if mean zoneReadings = 0 then ⟨1, .normal, .NORMAL⟩
  else
    let devPct := |val - mean zoneReadings| / |mean zoneReadings| * 100
    if devPct ≤ thresh.normal then ⟨1, .normal, .NORMAL⟩
    else if devPct ≤ thresh.moderate then ⟨0.5, .moderate, .ZONE_MISMATCH⟩
    else if 0 < zoneHistories.length ∧
        thresh.normal < mean (neighbourChanges zoneReadings zoneHistories) then
      ⟨0.5, .moderate, .FIELD_EVENT⟩
    else ⟨0.1, .extreme, .ZONE_MISMATCH⟩

/-- Mean of the peers own change percentages, written as the claim describes
it: each peer latest value paired with that peer history window. -/
def peerMeanChange (zoneReadings : List ℚ) (zoneHistories : List (List ℚ)) : ℚ :=
  mean ((zoneReadings.zip zoneHistories).map (fun q => peerChangePct q.1 q.2))

/-- A sensor reading row: the four probes plus the optional context fields,
all nullable in the database. -/
structure Reading where
  moisture : Option ℚ
  temperature : Option ℚ
  ec : Option ℚ
  ph : Option ℚ
  airTemp : Option ℚ
  isRaining : Option Bool
  irrigationActive : Option Bool
deriving DecidableEq

/-- Context argument of `computePhysicalScore`. -/
structure PhysCtx where
  prevPh : Option ℚ
  prevEc : Option ℚ
  airTemp : Option ℚ
  isRaining : Bool
  irrigationActive : Bool
deriving DecidableEq

/-- Result of `computePhysicalScore` (its `flags` strings are omitted). -/
structure PhysResult where
  score : ℚ
  level : Level
  causes : List RootCause
deriving DecidableEq

/-- Hard-bounds test of one probe: a present value strictly outside
`[lo, hi]`; an absent (null) value never violates. -/
def probeOut (lo hi : ℚ) : Option ℚ → Bool
  | none => false
  | some v => decide (v < lo) || decide (hi < v)

/-- High-moisture penalty condition: moisture above 85 with neither rain nor
irrigation (a null moisture coerces to 0 and never fires). -/
def physHit1 (reading : Reading) (ctx : PhysCtx) : Bool :=
  decide (85 < reading.moisture.getD 0) && !ctx.isRaining && !ctx.irrigationActive

/-- Soil-air temperature gap penalty condition, only when airTemp is
present. -/
def physHit2 (reading : Reading) (ctx : PhysCtx) : Bool :=
  match ctx.airTemp with
  | none => false
  | some a => decide (10 < |reading.temperature.getD 0 - a|)

/-- The pH jump penalty condition, only when a previous pH is present. -/
def physHit3 (reading : Reading) (ctx : PhysCtx) : Bool :=
  match ctx.prevPh with
  | none => false
  | some p => decide (1.5 < |reading.ph.getD 0 - p|)

/-- EC spike penalty condition, only when a positive previous EC is
present. -/
def physHit4 (reading : Reading) (ctx : PhysCtx) : Bool :=
  match ctx.prevEc with
  | none => false
  | some pe => decide (0 < pe) && decide (25 < |reading.ec.getD 0 - pe| / pe * 100)

/-- Penalty phase of `computePhysicalScore` (after the hard-bounds loop):
start at 1.0, subtract the penalties of the conditions that fire
(0.4, 0.3, 0.3, 0.3 in source order), floor at 0.1.  JavaScript coerces a
null probe to 0 inside the arithmetic of these checks, modelled by
`Option.getD 0`. -/
def physPenaltyPhase (reading : Reading) (ctx : PhysCtx) : PhysResult :=
  let score := max 0.1 (1 - (if physHit1 reading ctx then (0.4 : ℚ) else 0)
    - (if physHit2 reading ctx then (0.3 : ℚ) else 0)
    - (if physHit3 reading ctx then (0.3 : ℚ) else 0)
    - (if physHit4 reading ctx then (0.3 : ℚ) else 0))
  let causes :=
    (if physHit1 reading ctx then [RootCause.WEATHER_MISMATCH] else [])
      ++ (if physHit2 reading ctx then [RootCause.WEATHER_MISMATCH] else [])
      ++ (if physHit3 reading ctx then [RootCause.SPIKE] else [])
      ++ (if physHit4 reading ctx then [RootCause.SPIKE] else [])
  ⟨score,
    if 0.9 ≤ score then Level.normal
    else if 0.6 ≤ score then Level.moderate else Level.extreme,
    if causes = [] then [RootCause.NORMAL] else causes⟩

/-- Source `computePhysicalScore` (trust engine v3.0, lines 236 to 294): the
hard-bounds loop over `PHYSICAL_LIMITS` in insertion order returns the
extreme result at the first present out-of-bounds probe, otherwise the
penalty phase runs. -/
def computePhysicalScore (reading : Reading) (ctx : PhysCtx) : PhysResult :=
  if probeOut 0 100 reading.moisture then ⟨0.1, .extreme, [.IMPOSSIBLE_VALUE]⟩
  else if probeOut 0 60 reading.temperature then ⟨0.1, .extreme, [.IMPOSSIBLE_VALUE]⟩
  else if probeOut 0 10 reading.ec then ⟨0.1, .extreme, [.IMPOSSIBLE_VALUE]⟩
  else if probeOut 3 10 reading.ph then ⟨0.1, .extreme, [.IMPOSSIBLE_VALUE]⟩
  else physPenaltyPhase reading ctx

/-- Claim C7 wording of a hard-bounds violation: some present probe of the
current reading strictly outside its bounds (moisture `[0,100]`, temperature
`[0,60]`, ec `[0,10]`, ph `[3,10]`). -/
def hardViolation (r : Reading) : Prop :=
  (∃ v, r.moisture = some v ∧ (v < 0 ∨ 100 < v)) ∨
  (∃ v, r.temperature = some v ∧ (v < 0 ∨ 60 < v)) ∨
  (∃ v, r.ec = some v ∧ (v < 0 ∨ 10 < v)) ∨
  (∃ v, r.ph = some v ∧ (v < 3 ∨ 10 < v))

/-- Source `computeParamTrust`: weights `TEMPORAL 0.3, CROSS 0.5,
PHYSICAL 0.2`, result rounded to four fractional digits. -/
def computeParamTrust (temporalScore crossScore physicalScore : ℚ) : ℚ :=
  roundTo 4 (0.3 * temporalScore + 0.5 * crossScore + 0.2 * physicalScore)

/-- Source `computeSensorTrust`: unweighted mean of the four parameter
trusts, rounded to four fractional digits. -/
def computeSensorTrust (m t e p : ℚ) : ℚ :=
  roundTo 4 ((m + t + e + p) / 4)

/-- Sensor status bands. -/
inductive Status
  | Healthy
  | Warning
  | Anomalous
deriving DecidableEq

/-- Source constant `SEVERITY`. -/
inductive Severity
  | Critical
  | High
  | Medium
  | Low
  | None
deriving DecidableEq

/-- Source `interpretTrust` with `TRUST_BANDS` `0.85 / 0.78 / 0.73 / 0.50`;
returns status and label (the `action` string is omitted). -/
def interpretTrust (score : ℚ) : Status × String :=
  if 0.85 ≤ score then (.Healthy, "Highly Reliable")
  else if 0.78 ≤ score then (.Healthy, "Reliable")
  else if 0.73 ≤ score then (.Warning, "Uncertain")
  else if 0.5 ≤ score then (.Anomalous, "Unreliable")
  else (.Anomalous, "Anomaly")

/-- Source `computeSeverity`: first match wins, top-down. -/
def computeSeverity (sensorTrustScore : ℚ) (rootCauses : List RootCause) : Severity :=
  if RootCause.IMPOSSIBLE_VALUE ∈ rootCauses then .Critical
  else if sensorTrustScore < 0.15 then .Critical
  else if RootCause.ZONE_MISMATCH ∈ rootCauses ∧ sensorTrustScore < 0.5 then .High
  else if RootCause.SPIKE ∈ rootCauses ∧ sensorTrustScore < 0.5 then .High
  else if RootCause.STATIC ∈ rootCauses then .High
  else if RootCause.DRIFT ∈ rootCauses then .Medium
  else if RootCause.WEATHER_MISMATCH ∈ rootCauses then .Medium
  else if sensorTrustScore < 0.65 then .Low
  else .None

/-- One persisted trust result as consumed by the health-trend computation. -/
structure TrustLite where
  score : ℚ
  status : Status
deriving DecidableEq

/-- Output of `computeHealthTrend` (its `info` string is omitted). -/
structure HealthTrend where
  trend : String
  slope : ℚ
  anomalyRate : ℚ
deriving DecidableEq

/-- Source `computeHealthTrend` (trust engine v3.0, lines 354 to 369): with
fewer than 3 recent results the trend is the string `stable` with slope 0;
otherwise the trend is banded on the unrounded regression slope, the stored
slope is rounded to 4 digits and the anomaly rate to 2 digits. -/
def computeHealthTrend (recent : List TrustLite) : HealthTrend :=
  if recent.length < 3 then ⟨"stable", 0, 0⟩
  else
    let slope := linearSlope (recent.map TrustLite.score)
    let trend := if 0.01 < slope then "improving"
      else if slope < -0.01 then "degrading" else "stable"
    let anomalyRate : ℚ :=
      ((recent.filter (fun t => decide (t.status = Status.Anomalous))).length : ℚ)
        / recent.length
    ⟨trend, roundTo 4 slope, roundTo 2 anomalyRate⟩

/-- Probe projection out of a reading row. -/
def Param.proj : Param → Reading → Option ℚ
  | .moisture => Reading.moisture
  | .temperature => Reading.temperature
  | .ec => Reading.ec
  | .ph => Reading.ph

/-- The `zoneArrays` construction of `evaluateTrustScore`: each peer latest
value of the probe, peers with no reading or a null value dropped. -/
def zoneArray (p : Param) (zoneSensors : List (List Reading)) : List ℚ :=
  zoneSensors.filterMap (fun rs => rs.head?.bind p.proj)

/-- The `zoneHistories` construction of `evaluateTrustScore`: per peer, the
non-null probe values of all readings after the latest (peers are never
dropped at this level). -/
def zoneHistoriesOf (p : Param) (zoneSensors : List (List Reading)) : List (List ℚ) :=
  zoneSensors.map (fun rs => (rs.drop 1).filterMap p.proj)

/-- Per-parameter record assembled by the main loop of
`evaluateTrustScore`. -/
structure ParamDetail where
  temporal : ℚ
  temporalLevel : Level
  temporalCause : RootCause
  cross : ℚ
  crossCause : RootCause
  physical : ℚ
  paramTrust : ℚ
deriving DecidableEq

/-- The four per-parameter records. -/
structure PD4 where
  moisture : ParamDetail
  temperature : ParamDetail
  ec : ParamDetail
  ph : ParamDetail
deriving DecidableEq

/-- One loop iteration of `evaluateTrustScore`: temporal score on
`historyArrays` (readings 1 to 10, nulls dropped) and `driftArrays`
(readings 1 to 20, nulls dropped), cross score on the zone context, and the
weighted parameter trust.  JavaScript coerces a null current value to 0
inside the arithmetic of both axis functions. -/
def evalParamDetail (p : Param) (latest : Reading) (rest : List Reading)
    (zoneSensors : List (List Reading)) (physScore : ℚ) : ParamDetail :=
  let temporal := computeTemporalScore p ((p.proj latest).getD 0)
    ((rest.take 10).filterMap p.proj) ((rest.take 20).filterMap p.proj)
  let cross := computeCrossScore p ((p.proj latest).getD 0)
    (zoneArray p zoneSensors) (zoneHistoriesOf p zoneSensors)
  ⟨temporal.score, temporal.level, temporal.cause, cross.score, cross.cause,
    physScore, computeParamTrust temporal.score cross.score physScore⟩

/-- Insertion into the root-cause set of `classifyRootCauses`: a JavaScript
`Set` keeps first occurrences; `NORMAL` causes are skipped. -/
def addCause (acc : List RootCause) (c : RootCause) : List RootCause :=
  if c = .NORMAL then acc
  else if c ∈ acc then acc
  else acc ++ [c]

/-- Source `classifyRootCauses`: non-normal temporal and cross causes per
parameter in order, then the physical causes; `[NORMAL]` when empty. -/
def classifyRootCauses (details : PD4) (physCauses : List RootCause) : List RootCause :=
  let base := [details.moisture, details.temperature, details.ec, details.ph].foldl
    (fun acc d => addCause (addCause acc d.temporalCause) d.crossCause) []
  let all := physCauses.foldl addCause base
  if all = [] then [.NORMAL] else all

/-- The data `evaluateTrustScore` hands to `createMaintenanceTicket` (the
diagnostic string is omitted). -/
structure TicketRequest where
  severity : Severity
  trustScore : ℚ
deriving DecidableEq

/-- The verdict assembled and persisted by `evaluateTrustScore`.
`ticketRequest` is `some` exactly when the source invokes
`createMaintenanceTicket`. -/
structure Verdict where
  score : ℚ
  status : Status
  label : String
  severity : Severity
  rootCauses : List RootCause
  healthTrend : HealthTrend
  details : PD4
  ticketRequest : Option TicketRequest
deriving DecidableEq

/-- The physical check of `evaluateTrustScore`: context built from the
previous reading (readings index 1), and the latest reading context
fields. -/
def physOf (latest : Reading) (rest : List Reading) : PhysResult :=
  computePhysicalScore latest
    ⟨(rest.head?).bind Reading.ph, (rest.head?).bind Reading.ec, latest.airTemp,
      latest.isRaining.getD false, latest.irrigationActive.getD false⟩

/-- Body of `evaluateTrustScore` after the insufficient-history guard:
physical check from the latest reading and its predecessor, per-parameter
trusts, aggregation, interpretation, root causes, severity, health trend and
the ticket handoff condition. -/
def evalCore (latest : Reading) (rest : List Reading)
    (zoneSensors : List (List Reading)) (trustScores : List TrustLite) : Verdict :=
  let physical := physOf latest rest
  let dM := evalParamDetail .moisture latest rest zoneSensors physical.score
  let dT := evalParamDetail .temperature latest rest zoneSensors physical.score
  let dE := evalParamDetail .ec latest rest zoneSensors physical.score
  let dP := evalParamDetail .ph latest rest zoneSensors physical.score
  let details : PD4 := ⟨dM, dT, dE, dP⟩
  let sensorTrust := computeSensorTrust dM.paramTrust dT.paramTrust dE.paramTrust dP.paramTrust
  let interp := interpretTrust sensorTrust
  let rootCauses := classifyRootCauses details physical.causes
  let severity := computeSeverity sensorTrust rootCauses
  let healthTrend := computeHealthTrend trustScores
  let ticketRequest :=
    if interp.1 = Status.Anomalous ∧ RootCause.FIELD_EVENT ∉ rootCauses then
      some ⟨severity, sensorTrust⟩
    else none
  ⟨sensorTrust, interp.1, interp.2, severity, rootCauses, healthTrend, details, ticketRequest⟩

/-- The context `evaluateTrustScore` fetches for one sensor: this sensor
readings newest-first (take 50), each zone peer readings newest-first
(take 11), and the last 10 trust results. -/
structure EvalInput where
  readings : List Reading
  zoneSensors : List (List Reading)
  trustScores : List TrustLite
deriving DecidableEq

/-- Source `evaluateTrustScore` (trust engine v3.0, lines 513 to 691) for an
existing sensor: a null verdict when the sensor has fewer than 5 readings,
otherwise the full diagnostic verdict. -/
def evaluateTrustScore (input : EvalInput) : Option Verdict :=
  if input.readings.length < 5 then none
  else
    match input.readings with
    | [] => none
    | latest :: rest => some (evalCore latest rest input.zoneSensors input.trustScores)

/-- A maintenance ticket row. -/
structure Ticket where
  tid : ℕ
  sensorId : ℕ
  issue : String
  severity : Severity
  status : String
  resolvedAt : Option ℕ
deriving DecidableEq

/-- The `findFirst` query of `createMaintenanceTicket`: first ticket of the
sensor whose status is Open. -/
def openTicketForSensor (ts : List Ticket) (sid : ℕ) : Option Ticket :=
  ts.find? (fun t => decide (t.sensorId = sid ∧ t.status = "Open"))

/-- Source `createMaintenanceTicket` (maintenance.js lines 11 to 41): when an
Open ticket exists for the sensor it is returned unchanged and nothing is
created; otherwise a new Open ticket is appended.  Returns the new store
ticket list and the returned ticket. -/
def createMaintenanceTicket (ts : List Ticket) (sid : ℕ) (issue : String)
    (sev : Severity) : List Ticket × Ticket :=
  match openTicketForSensor ts sid with
  | some t => (ts, t)
  | none =>
      let t : Ticket := ⟨ts.length, sid, issue, sev, "Open", none⟩
      (ts ++ [t], t)

/-- Per-ticket effect of `updateTicketStatus` (maintenance.js lines 69 to
89): the matching ticket gets the requested status unconditionally, and
`resolvedAt` is set to the current time exactly when the new status is
Resolved. -/
def applyStatus (t : Ticket) (tid : ℕ) (newStatus : String) (now : ℕ) : Ticket :=
  if t.tid = tid then
    { t with status := newStatus,
             resolvedAt := if newStatus = "Resolved" then some now else t.resolvedAt }
  else t

/-- Source `updateTicketStatus` lifted to the ticket store. -/
def updateTicketStatus (ts : List Ticket) (tid : ℕ) (newStatus : String)
    (now : ℕ) : List Ticket :=
  ts.map (fun t => applyStatus t tid newStatus now)

/-- One step of the ticket store under the operations the backend exposes:
ticket creation from an anomalous evaluation, and a status update through the
ticket route (which forwards an arbitrary requested status). -/
inductive TicketStep : List Ticket → List Ticket → Prop
  | create (ts : List Ticket) (sid : ℕ) (issue : String) (sev : Severity) :
      TicketStep ts (createMaintenanceTicket ts sid issue sev).1
  | update (ts : List Ticket) (tid : ℕ) (s : String) (now : ℕ) :
      TicketStep ts (updateTicketStatus ts tid s now)

/-- Ticket stores reachable from the empty store. -/
def TicketReachable (ts : List Ticket) : Prop :=
  Relation.ReflTransGen TicketStep [] ts

/-- Steps restricted to never request the literal status Open in an update;
creation is unrestricted. -/
inductive SafeTicketStep : List Ticket → List Ticket → Prop
  | create (ts : List Ticket) (sid : ℕ) (issue : String) (sev : Severity) :
      SafeTicketStep ts (createMaintenanceTicket ts sid issue sev).1
  | update (ts : List Ticket) (tid : ℕ) (s : String) (now : ℕ) (h : s ≠ "Open") :
      SafeTicketStep ts (updateTicketStatus ts tid s now)

/-- Ticket stores reachable from the empty store without re-opening
updates. -/
def SafeTicketReachable (ts : List Ticket) : Prop :=
  Relation.ReflTransGen SafeTicketStep [] ts

/-- The at-most-one-Open-ticket-per-sensor invariant: any two Open tickets of
the same sensor coincide. -/
abbrev atMostOneOpen (ts : List Ticket) : Prop :=
  ∀ t1 ∈ ts, ∀ t2 ∈ ts, t1.status = "Open" → t2.status = "Open" →
    t1.sensorId = t2.sensorId → t1 = t2

/-- Rank of a severity in the ordering None < Low < Medium < High <
Critical used by the claims. -/
def sevRank : Severity → ℕ
  | .None => 0
  | .Low => 1
  | .Medium => 2
  | .High => 3
  | .Critical => 4

/-- A sensor registration row (sensorRegistry.js; latitude and longitude are
omitted). -/
structure SensorRec where
  sid : ℕ
  externalId : String
  zone : String
  type : String
deriving DecidableEq

/-- A trust score row as written by the registry. -/
structure TrustRow where
  sensorId : ℕ
  score : ℚ
  status : Status
deriving DecidableEq

/-- The store state visible to `registerSensor`. -/
structure RegistryState where
  sensors : List SensorRec
  trustScores : List TrustRow
  readings : List ℕ
  tickets : List Ticket
deriving DecidableEq

/-- Registration failure: the unique constraint on the external sensor id. -/
inductive RegError
  | DuplicateId
deriving DecidableEq

/-- Source `registerSensor` (sensorRegistry.js lines 11 to 38): the unique
constraint on the external id makes the create fail before anything is
written when the id already exists; otherwise the sensor row and an initial
trust score row with score 100.0 and status Healthy are created. -/
def registerSensor (st : RegistryState) (externalId zone ty : String) :
    Except RegError (RegistryState × ℕ) :=
  if st.sensors.any (fun s => decide (s.externalId = externalId)) then
    .error .DuplicateId
  else
    let sid := st.sensors.length
    .ok ({ st with
            sensors := st.sensors ++ [⟨sid, externalId, zone, ty⟩],
            trustScores := st.trustScores ++ [⟨sid, 100, .Healthy⟩] }, sid)

/-! Concrete inputs used by witnesses and counterexamples. -/

/-- A reading with every probe and context field null. -/
def nullReading : Reading := ⟨none, none, none, none, none, none, none⟩

/-- Five all-null readings, no zone peers, no trust history. -/
def wIn : EvalInput := ⟨List.replicate 5 nullReading, [], []⟩

/-- The per-parameter record the scorer produces on `wIn`. -/
def pdOne : ParamDetail := ⟨1, .normal, .NORMAL, 1, .NORMAL, 1, 1⟩

/-- The verdict the scorer produces on `wIn`. -/
def wOut : Verdict :=
  ⟨1, .Healthy, "Highly Reliable", .None, [.NORMAL], ⟨"stable", 0, 0⟩,
    ⟨pdOne, pdOne, pdOne, pdOne⟩, none⟩

/-- Four all-null readings. -/
def c6four : EvalInput := ⟨List.replicate 4 nullReading, [], []⟩

/-- Five all-null readings (separate copy for the claim about null
verdicts). -/
def c6five : EvalInput := ⟨List.replicate 5 nullReading, [], []⟩

/-- A reading whose moisture is just above the hard bound. -/
def rBadC7 : Reading := ⟨some (1000001 / 10000), none, none, none, none, none, none⟩

/-- A reading with every probe exactly on its upper bound. -/
def rBoundC7 : Reading := ⟨some 100, some 60, some 10, some 10, none, none, none⟩

/-- An empty physical context. -/
def ctx0 : PhysCtx := ⟨none, none, none, false, false⟩

/-- Ticket trace: the ticket created first for sensor 0. -/
def c4t0open : Ticket := ⟨0, 0, "i1", .High, "Open", none⟩

/-- Ticket trace: the first ticket after it is resolved at time 5. -/
def c4t0res : Ticket := ⟨0, 0, "i1", .High, "Resolved", some 5⟩

/-- Ticket trace: the second ticket created for sensor 0. -/
def c4t1open : Ticket := ⟨1, 0, "i2", .High, "Open", none⟩

/-- Ticket trace: the first ticket after the route re-opens it at time 9. -/
def c4t0reopen : Ticket := ⟨0, 0, "i1", .High, "Open", some 5⟩

/-- Intermediate ticket stores of the violating trace. -/
def c4s1 : List Ticket := [c4t0open]

/-- Store after resolving the first ticket. -/
def c4s2 : List Ticket := [c4t0res]

/-- Store after the second anomalous evaluation creates a new ticket. -/
def c4s3 : List Ticket := [c4t0res, c4t1open]

/-- Store with two Open tickets for sensor 0. -/
def c4bad : List Ticket := [c4t0reopen, c4t1open]

/-- An open ticket used by the C4 witness. -/
def c4wt : Ticket := ⟨0, 0, "w", .Low, "Open", none⟩

/-- A one-ticket store used by the C4 witness. -/
def c4wts : List Ticket := [c4wt]

/-- An existing Open ticket with low severity and an old diagnostic. -/
def c5t : Ticket := ⟨0, 3, "old", .Low, "Open", none⟩

/-- A store holding only that ticket. -/
def c5store : List Ticket := [c5t]

/-- A Resolved ticket. -/
def c8t : Ticket := ⟨3, 1, "i", .High, "Resolved", some 4⟩

/-- Two recent trust results (fewer than three). -/
def c9two : List TrustLite := [⟨0.5, .Healthy⟩, ⟨0.9, .Anomalous⟩]

/-- Three recent trust results with steeply falling scores. -/
def c9three : List TrustLite := [⟨0.9, .Healthy⟩, ⟨0.6, .Anomalous⟩, ⟨0.3, .Anomalous⟩]

/-- The empty registry store. -/
def regEmpty : RegistryState := ⟨[], [], [], []⟩

/-- The registry store after registering sensor S1. -/
def regOne : RegistryState :=
  ⟨[⟨0, "S1", "z1", "soil"⟩], [⟨0, 100, .Healthy⟩], [], []⟩

/-! Helper lemmas. -/

/-- Rounding is monotone. -/
theorem roundQ_mono {x y : ℚ} (h : x ≤ y) : round x ≤ round y := by
  rw [round_eq, round_eq]
  exact Int.floor_le_floor (by linarith)

/-- Rounding to four digits preserves nonnegativity. -/
theorem roundTo4_nonneg {q : ℚ} (h : 0 ≤ q) : 0 ≤ roundTo 4 q := by
  unfold roundTo
  apply div_nonneg _ (by norm_num)
  have h2 : round (0 : ℚ) ≤ round (q * 10 ^ 4) := roundQ_mono (by nlinarith)
  rw [round_zero] at h2
  exact_mod_cast h2

/-- Rounding to four digits preserves the upper bound 1. -/
theorem roundTo4_le_one {q : ℚ} (h : q ≤ 1) : roundTo 4 q ≤ 1 := by
  unfold roundTo
  rw [div_le_one (by norm_num)]
  have h2 : round (q * 10 ^ 4) ≤ round ((10 : ℚ) ^ 4) := roundQ_mono (by nlinarith)
  have h3 : round ((10 : ℚ) ^ 4) = 10000 := by
    have h5 : ((10 : ℚ) ^ 4) = ((10000 : ℤ) : ℚ) := by norm_num
    rw [h5, round_intCast]
  rw [h3] at h2
  have h4 : ((round (q * 10 ^ 4) : ℤ) : ℚ) ≤ ((10000 : ℤ) : ℚ) := Int.cast_le.mpr h2
  calc (round (q * 10 ^ 4) : ℚ) ≤ ((10000 : ℤ) : ℚ) := h4
    _ = 10 ^ 4 := by norm_num

/-- Rounding to four digits moves a value by at most one ten-thousandth. -/
theorem abs_roundTo4_sub (q : ℚ) : |roundTo 4 q - q| ≤ 1 / 10000 := by
  unfold roundTo
  have h := abs_sub_round (q * 10 ^ 4)
  have h1 : (round (q * 10 ^ 4) : ℚ) / 10 ^ 4 - q
      = ((round (q * 10 ^ 4) : ℚ) - q * 10 ^ 4) / 10 ^ 4 := by ring
  rw [h1, abs_div, abs_of_pos (by norm_num : (0 : ℚ) < 10 ^ 4)]
  rw [abs_sub_comm] at h
  calc |(round (q * 10 ^ 4) : ℚ) - q * 10 ^ 4| / 10 ^ 4
      ≤ (1 / 2) / 10 ^ 4 := by
        apply div_le_div_of_nonneg_right h (by norm_num)
    _ ≤ 1 / 10000 := by norm_num

/-- The temporal axis score is one of the configured constants, all in
`[0, 1]`. -/
theorem temporal_score_bounds (p : Param) (v : ℚ) (h d : List ℚ) :
    0 ≤ (computeTemporalScore p v h d).score ∧ (computeTemporalScore p v h d).score ≤ 1 := by
  simp only [computeTemporalScore]
  split_ifs <;> norm_num

/-- The cross axis score is one of the configured constants, all in
`[0, 1]`. -/
theorem cross_score_bounds (p : Param) (v : ℚ) (zr : List ℚ) (zh : List (List ℚ)) :
    0 ≤ (computeCrossScore p v zr zh).score ∧ (computeCrossScore p v zr zh).score ≤ 1 := by
  simp only [computeCrossScore]
  split_ifs <;> norm_num

/-- The physical score lies in `[0, 1]`. -/
theorem physical_score_bounds (r : Reading) (c : PhysCtx) :
    0 ≤ (computePhysicalScore r c).score ∧ (computePhysicalScore r c).score ≤ 1 := by
  simp only [computePhysicalScore, physPenaltyPhase]
  split_ifs <;> norm_num [le_max_iff, max_le_iff]

/-- The weighted parameter trust stays in `[0, 1]` when its inputs do. -/
theorem paramTrust_bounds {t c s : ℚ} (ht0 : 0 ≤ t) (ht1 : t ≤ 1) (hc0 : 0 ≤ c)
    (hc1 : c ≤ 1) (hs0 : 0 ≤ s) (hs1 : s ≤ 1) :
    0 ≤ computeParamTrust t c s ∧ computeParamTrust t c s ≤ 1 := by
  unfold computeParamTrust
  exact ⟨roundTo4_nonneg (by linarith), roundTo4_le_one (by linarith)⟩

/-- The rounded sensor trust stays in `[0, 1]` when the four parameter
trusts do. -/
theorem computeSensorTrust_bounds {a b c d : ℚ} (ha0 : 0 ≤ a) (ha1 : a ≤ 1)
    (hb0 : 0 ≤ b) (hb1 : b ≤ 1) (hc0 : 0 ≤ c) (hc1 : c ≤ 1) (hd0 : 0 ≤ d) (hd1 : d ≤ 1) :
    0 ≤ computeSensorTrust a b c d ∧ computeSensorTrust a b c d ≤ 1 := by
  unfold computeSensorTrust
  exact ⟨roundTo4_nonneg (by linarith), roundTo4_le_one (by linarith)⟩

/-- The per-parameter record carries the weighted rounded trust of its three
recorded sub-scores, and that trust is in `[0, 1]` when the shared physical
score is. -/
theorem evalParamDetail_trust (p : Param) (latest : Reading) (rest : List Reading)
    (zs : List (List Reading)) (s : ℚ) (hs0 : 0 ≤ s) (hs1 : s ≤ 1) :
    (evalParamDetail p latest rest zs s).paramTrust
      = roundTo 4 (0.3 * (evalParamDetail p latest rest zs s).temporal
          + 0.5 * (evalParamDetail p latest rest zs s).cross
          + 0.2 * (evalParamDetail p latest rest zs s).physical) ∧
    0 ≤ (evalParamDetail p latest rest zs s).paramTrust ∧
    (evalParamDetail p latest rest zs s).paramTrust ≤ 1 := by
  have ht := temporal_score_bounds p ((p.proj latest).getD 0)
    ((rest.take 10).filterMap p.proj) ((rest.take 20).filterMap p.proj)
  have hc := cross_score_bounds p ((p.proj latest).getD 0)
    (zoneArray p zs) (zoneHistoriesOf p zs)
  have hb := paramTrust_bounds ht.1 ht.2 hc.1 hc.2 hs0 hs1
  exact ⟨rfl, hb.1, hb.2⟩

/-- The `neighbourChanges` array coincides with the per-peer change
percentages over the zipped lists whenever the histories list is no longer
than the readings list. -/
theorem neighbourChanges_eq (zh : List (List ℚ)) (zr : List ℚ)
    (h : zh.length ≤ zr.length) :
    neighbourChanges zr zh = (zr.zip zh).map (fun q => peerChangePct q.1 q.2) := by
  induction zh generalizing zr with
  | nil => simp [neighbourChanges]
  | cons hist rest ih =>
      cases zr with
      | nil => simp at h
      | cons z zs =>
          simp only [neighbourChanges, List.zip_cons_cons, List.map_cons, List.headD_cons,
            List.tail_cons]
          rw [ih zs (by simpa using h)]

/-! Claim theorems. -/

/-- Claim C2: the temporal sub-score follows the ordered algorithm of the
specification: fewer than 2 prior values gives 1.0 Normal; else a history
range below the static threshold gives 0.2 Static; else a drift window of at
least 5 values with absolute regression slope above the drift threshold
gives 0.4 Drift; else a zero history mean gives 1.0, and otherwise the
change percentage is banded into 1.0 Normal, 0.6 Spike, 0.1 Spike. -/
theorem temporal_score_algorithm_C2 (p : Param) (v : ℚ) (h d : List ℚ) :
    (h.length < 2 → computeTemporalScore p v h d = ⟨1, .normal, .NORMAL⟩) ∧
    (2 ≤ h.length → listMax h - listMin h < staticThresholds p →
      computeTemporalScore p v h d = ⟨0.2, .static, .STATIC⟩) ∧
    (2 ≤ h.length → ¬ listMax h - listMin h < staticThresholds p →
      5 ≤ d.length → driftThresholds p < |linearSlope d| →
      computeTemporalScore p v h d = ⟨0.4, .drift, .DRIFT⟩) ∧
    (2 ≤ h.length → ¬ listMax h - listMin h < staticThresholds p →
      ¬ (5 ≤ d.length ∧ driftThresholds p < |linearSlope d|) →
      mean h = 0 → computeTemporalScore p v h d = ⟨1, .normal, .NORMAL⟩) ∧
    (2 ≤ h.length → ¬ listMax h - listMin h < staticThresholds p →
      ¬ (5 ≤ d.length ∧ driftThresholds p < |linearSlope d|) →
      mean h ≠ 0 →
      computeTemporalScore p v h d =
        (if |v - mean h| / |mean h| * 100 ≤ (temporalThresholds p).normal then
          ⟨1, .normal, .NORMAL⟩
        else if |v - mean h| / |mean h| * 100 ≤ (temporalThresholds p).moderate then
          ⟨0.6, .moderate, .SPIKE⟩
        else ⟨0.1, .extreme, .SPIKE⟩)) := by
  refine ⟨?_, ?_, ?_, ?_, ?_⟩
  · intro h1
    unfold computeTemporalScore
    rw [if_pos h1]
  · intro h1 h2
    unfold computeTemporalScore
    rw [if_neg (by omega), if_pos h2]
  · intro h1 h2 h3 h4
    unfold computeTemporalScore
    rw [if_neg (by omega), if_neg h2, if_pos ⟨h3, h4⟩]
  · intro h1 h2 h3 h4
    unfold computeTemporalScore
    rw [if_neg (by omega), if_neg h2, if_neg h3, if_pos h4]
  · intro h1 h2 h3 h4
    unfold computeTemporalScore
    rw [if_neg (by omega), if_neg h2, if_neg h3, if_neg h4]

/-- Witness for C2: a history with fewer than two values yields the normal
score 1.0. -/
theorem temporal_score_algorithm_C2_witness :
    computeTemporalScore .moisture 5 [] [] = ⟨1, .normal, .NORMAL⟩ :=
  (temporal_score_algorithm_C2 .moisture 5 [] []).1 (by decide)

/-- Claim C3: with no peers or zero peer mean the cross score is 1.0 Normal;
and in the extreme deviation band the decision is by the mean of the peers
own change percentages against the normal cross threshold: above it the
result is 0.5 FieldEvent, otherwise 0.1 ZoneMismatch. -/
theorem cross_extreme_classification_C3 (p : Param) (v : ℚ) (zr : List ℚ)
    (zh : List (List ℚ)) (hlen : zh.length = zr.length) :
    (zr = [] → computeCrossScore p v zr zh = ⟨1, .normal, .NORMAL⟩) ∧
    (mean zr = 0 → computeCrossScore p v zr zh = ⟨1, .normal, .NORMAL⟩) ∧
    (zr ≠ [] → mean zr ≠ 0 →
      (crossThresholds p).moderate < |v - mean zr| / |mean zr| * 100 →
      computeCrossScore p v zr zh =
        (if (crossThresholds p).normal < peerMeanChange zr zh then
          ⟨0.5, .moderate, .FIELD_EVENT⟩
        else ⟨0.1, .extreme, .ZONE_MISMATCH⟩)) := by
  have hband : (crossThresholds p).normal ≤ (crossThresholds p).moderate := by
    cases p <;> norm_num [crossThresholds]
  refine ⟨?_, ?_, ?_⟩
  · intro h1
    subst h1
    rfl
  · intro h1
    unfold computeCrossScore
    by_cases h0 : zr.length = 0
    · rw [if_pos h0]
    · rw [if_neg h0, if_pos h1]
  · intro h1 h2 h3
    have h0 : ¬ zr.length = 0 := by
      intro h
      exact h1 (List.length_eq_zero.mp h)
    have hnm : ¬ |v - mean zr| / |mean zr| * 100 ≤ (crossThresholds p).normal := by
      intro h
      linarith
    have hmm : ¬ |v - mean zr| / |mean zr| * 100 ≤ (crossThresholds p).moderate := by
      intro h
      linarith
    have hzz : 0 < zh.length := by
      rw [hlen]
      omega
    have hpeer : mean (neighbourChanges zr zh) = peerMeanChange zr zh := by
      rw [neighbourChanges_eq zh zr (le_of_eq hlen)]
      rfl
    unfold computeCrossScore
    rw [if_neg h0, if_neg h2, if_neg hnm, if_neg hmm]
    by_cases hf : (crossThresholds p).normal < peerMeanChange zr zh
    · rw [if_pos ⟨hzz, by rwa [hpeer]⟩, if_pos hf]
    · rw [if_neg (by rw [hpeer]; tauto), if_neg hf]

/-- Witness for C3: an isolated extreme deviation against one peer whose own
reading also moved is classified through the peer mean. -/
theorem cross_extreme_classification_C3_witness :
    computeCrossScore .moisture 100 [10] [[10, 20]] =
      (if (crossThresholds .moisture).normal < peerMeanChange [10] [[10, 20]] then
        ⟨0.5, .moderate, .FIELD_EVENT⟩
      else ⟨0.1, .extreme, .ZONE_MISMATCH⟩) := by
  have hm : mean [10] = 10 := by
    norm_num [mean, List.sum_cons, List.sum_nil]
  refine (cross_extreme_classification_C3 .moisture 100 [10] [[10, 20]] rfl).2.2
    (by decide) (by rw [hm]; norm_num) ?_
  rw [hm]
  have h1 : |(100 : ℚ) - 10| = 90 := by
    rw [abs_of_nonneg (by norm_num : (0 : ℚ) ≤ 100 - 10)]
    norm_num
  have h2 : |(10 : ℚ)| = 10 := abs_of_nonneg (by norm_num)
  rw [h1, h2]
  norm_num [crossThresholds]

/-- The hard-bounds test fires exactly on a present value strictly outside
the bounds. -/
theorem probeOut_iff (lo hi : ℚ) (o : Option ℚ) :
    probeOut lo hi o = true ↔ ∃ v, o = some v ∧ (v < lo ∨ hi < v) := by
  cases o <;> simp [probeOut]

/-- The penalty phase never reports an impossible value. -/
theorem impossible_not_in_penalty (r : Reading) (c : PhysCtx) :
    RootCause.IMPOSSIBLE_VALUE ∉ (physPenaltyPhase r c).causes := by
  simp only [physPenaltyPhase]
  split_ifs <;> simp

/-- Claim C7: the physical hard-bounds check is boundary inclusive and
short-circuiting: an ImpossibleValue cause arises exactly when some present
probe is strictly outside its bounds, and in that case the physical result is
exactly score 0.1, level extreme, causes ImpossibleValue only, regardless of
the penalty context; absent probes never trigger the check. -/
theorem physical_hard_bounds_C7 (r : Reading) (c : PhysCtx) :
    (RootCause.IMPOSSIBLE_VALUE ∈ (computePhysicalScore r c).causes ↔ hardViolation r) ∧
    (hardViolation r →
      computePhysicalScore r c = ⟨0.1, .extreme, [.IMPOSSIBLE_VALUE]⟩) := by
  unfold computePhysicalScore
  by_cases h1 : probeOut 0 100 r.moisture = true
  · rw [if_pos h1]
    exact ⟨⟨fun _ => Or.inl ((probeOut_iff _ _ _).1 h1), fun _ => by simp⟩, fun _ => rfl⟩
  · rw [if_neg h1]
    by_cases h2 : probeOut 0 60 r.temperature = true
    · rw [if_pos h2]
      exact ⟨⟨fun _ => Or.inr (Or.inl ((probeOut_iff _ _ _).1 h2)), fun _ => by simp⟩,
        fun _ => rfl⟩
    · rw [if_neg h2]
      by_cases h3 : probeOut 0 10 r.ec = true
      · rw [if_pos h3]
        exact ⟨⟨fun _ => Or.inr (Or.inr (Or.inl ((probeOut_iff _ _ _).1 h3))),
          fun _ => by simp⟩, fun _ => rfl⟩
      · rw [if_neg h3]
        by_cases h4 : probeOut 3 10 r.ph = true
        · rw [if_pos h4]
          exact ⟨⟨fun _ => Or.inr (Or.inr (Or.inr ((probeOut_iff _ _ _).1 h4))),
            fun _ => by simp⟩, fun _ => rfl⟩
        · rw [if_neg h4]
          have hnv : ¬ hardViolation r := by
            rintro (hv | hv | hv | hv)
            · exact h1 ((probeOut_iff _ _ _).2 hv)
            · exact h2 ((probeOut_iff _ _ _).2 hv)
            · exact h3 ((probeOut_iff _ _ _).2 hv)
            · exact h4 ((probeOut_iff _ _ _).2 hv)
          exact ⟨⟨fun hmem => absurd hmem (impossible_not_in_penalty r c),
            fun hv => absurd hv hnv⟩, fun hv => absurd hv hnv⟩

/-- Witness for C7: moisture 100.0001 yields the short-circuit extreme
result, while every probe exactly on its bound yields no ImpossibleValue. -/
theorem physical_hard_bounds_C7_witness :
    computePhysicalScore rBadC7 ctx0 = ⟨0.1, .extreme, [.IMPOSSIBLE_VALUE]⟩ ∧
    RootCause.IMPOSSIBLE_VALUE ∉ (computePhysicalScore rBoundC7 ctx0).causes := by
  have hbad : hardViolation rBadC7 :=
    Or.inl ⟨1000001 / 10000, rfl, Or.inr (by norm_num)⟩
  have hnb : ¬ hardViolation rBoundC7 := by
    rintro (⟨v, hv, hb⟩ | ⟨v, hv, hb⟩ | ⟨v, hv, hb⟩ | ⟨v, hv, hb⟩) <;>
      (simp only [rBoundC7, Option.some.injEq] at hv; subst hv;
        rcases hb with hb | hb <;> norm_num at hb)
  exact ⟨(physical_hard_bounds_C7 rBadC7 ctx0).2 hbad,
    fun hmem => hnb ((physical_hard_bounds_C7 rBoundC7 ctx0).1.mp hmem)⟩

/-- Projection equation for the moisture record of a verdict. -/
theorem evalCore_details_moisture (l : Reading) (r : List Reading)
    (zs : List (List Reading)) (tr : List TrustLite) :
    (evalCore l r zs tr).details.moisture
      = evalParamDetail .moisture l r zs (physOf l r).score := rfl

/-- Projection equation for the temperature record of a verdict. -/
theorem evalCore_details_temperature (l : Reading) (r : List Reading)
    (zs : List (List Reading)) (tr : List TrustLite) :
    (evalCore l r zs tr).details.temperature
      = evalParamDetail .temperature l r zs (physOf l r).score := rfl

/-- Projection equation for the EC record of a verdict. -/
theorem evalCore_details_ec (l : Reading) (r : List Reading)
    (zs : List (List Reading)) (tr : List TrustLite) :
    (evalCore l r zs tr).details.ec
      = evalParamDetail .ec l r zs (physOf l r).score := rfl

/-- Projection equation for the pH record of a verdict. -/
theorem evalCore_details_ph (l : Reading) (r : List Reading)
    (zs : List (List Reading)) (tr : List TrustLite) :
    (evalCore l r zs tr).details.ph
      = evalParamDetail .ph l r zs (physOf l r).score := rfl

/-- The verdict score is the rounded mean of the four per-parameter
trusts. -/
theorem evalCore_score_eq (l : Reading) (r : List Reading)
    (zs : List (List Reading)) (tr : List TrustLite) :
    (evalCore l r zs tr).score = computeSensorTrust
      (evalParamDetail .moisture l r zs (physOf l r).score).paramTrust
      (evalParamDetail .temperature l r zs (physOf l r).score).paramTrust
      (evalParamDetail .ec l r zs (physOf l r).score).paramTrust
      (evalParamDetail .ph l r zs (physOf l r).score).paramTrust := rfl

/-- The rounded sensor trust is within one ten-thousandth of the plain
mean. -/
theorem computeSensorTrust_close (a b c d : ℚ) :
    |computeSensorTrust a b c d - (a + b + c + d) / 4| ≤ 1 / 10000 :=
  abs_roundTo4_sub _

/-- Claim C1: for every verdict the scorer assembles, each per-parameter
aggregate trust is the fixed combination of 0.3 temporal, 0.5 cross and 0.2
physical of that parameter sub-scores rounded to four digits, the sensor
score is within one ten-thousandth of the unweighted mean of the four
aggregates, and both the aggregates and the score lie in `[0, 1]`.
`evaluateTrustScore` returns exactly `some (evalCore ...)` whenever it
returns a verdict. -/
theorem trust_weights_aggregate_C1 (l : Reading) (r : List Reading)
    (zs : List (List Reading)) (tr : List TrustLite) :
    (∀ d ∈ [(evalCore l r zs tr).details.moisture,
        (evalCore l r zs tr).details.temperature,
        (evalCore l r zs tr).details.ec,
        (evalCore l r zs tr).details.ph],
      d.paramTrust = roundTo 4 (0.3 * d.temporal + 0.5 * d.cross + 0.2 * d.physical) ∧
      0 ≤ d.paramTrust ∧ d.paramTrust ≤ 1) ∧
    |(evalCore l r zs tr).score
        - ((evalCore l r zs tr).details.moisture.paramTrust
          + (evalCore l r zs tr).details.temperature.paramTrust
          + (evalCore l r zs tr).details.ec.paramTrust
          + (evalCore l r zs tr).details.ph.paramTrust) / 4| ≤ 1 / 10000 ∧
    0 ≤ (evalCore l r zs tr).score ∧ (evalCore l r zs tr).score ≤ 1 := by
  have hp : 0 ≤ (physOf l r).score ∧ (physOf l r).score ≤ 1 :=
    physical_score_bounds _ _
  have hM := evalParamDetail_trust .moisture l r zs _ hp.1 hp.2
  have hT := evalParamDetail_trust .temperature l r zs _ hp.1 hp.2
  have hE := evalParamDetail_trust .ec l r zs _ hp.1 hp.2
  have hP := evalParamDetail_trust .ph l r zs _ hp.1 hp.2
  refine ⟨?_, ?_, ?_, ?_⟩
  · intro d hd
    simp only [List.mem_cons, List.not_mem_nil, or_false] at hd
    rcases hd with rfl | rfl | rfl | rfl
    · rw [evalCore_details_moisture]
      exact hM
    · rw [evalCore_details_temperature]
      exact hT
    · rw [evalCore_details_ec]
      exact hE
    · rw [evalCore_details_ph]
      exact hP
  · rw [evalCore_score_eq, evalCore_details_moisture, evalCore_details_temperature,
      evalCore_details_ec, evalCore_details_ph]
    exact computeSensorTrust_close _ _ _ _
  · rw [evalCore_score_eq]
    exact (computeSensorTrust_bounds hM.2.1 hM.2.2 hT.2.1 hT.2.2 hE.2.1 hE.2.2
      hP.2.1 hP.2.2).1
  · rw [evalCore_score_eq]
    exact (computeSensorTrust_bounds hM.2.1 hM.2.2 hT.2.1 hT.2.2 hE.2.1 hE.2.2
      hP.2.1 hP.2.2).2

/-- Witness for C1: the bounds instantiated on a concrete verdict. -/
theorem trust_weights_aggregate_C1_witness :
    (0 ≤ (evalCore nullReading (List.replicate 4 nullReading) [] []).score ∧
      (evalCore nullReading (List.replicate 4 nullReading) [] []).score ≤ 1) ∧
    ((evalCore nullReading (List.replicate 4 nullReading) [] []).details.moisture.paramTrust
      = roundTo 4 (0.3 *
          (evalCore nullReading (List.replicate 4 nullReading) [] []).details.moisture.temporal
        + 0.5 *
          (evalCore nullReading (List.replicate 4 nullReading) [] []).details.moisture.cross
        + 0.2 *
          (evalCore nullReading (List.replicate 4 nullReading) [] []).details.moisture.physical)) := by
  have h := trust_weights_aggregate_C1 nullReading (List.replicate 4 nullReading) [] []
  exact ⟨⟨h.2.2.1, h.2.2.2⟩,
    (h.1 _ (List.mem_cons_self _ _)).1⟩

/-- Claim C6: the scorer returns a null verdict exactly when the sensor has
fewer than 5 readings; with 5 or more (in particular exactly 5) a verdict is
produced. -/
theorem null_verdict_iff_C6 (input : EvalInput) :
    evaluateTrustScore input = none ↔ input.readings.length < 5 := by
  rcases hr : input.readings with _ | ⟨latest, rest⟩
  · simp [evaluateTrustScore, hr]
  · by_cases h5 : (latest :: rest).length < 5
    · simp only [evaluateTrustScore, hr, if_pos h5]
      exact iff_of_true trivial h5
    · simp only [evaluateTrustScore, hr, if_neg h5]
      exact iff_of_false (by simp) h5

/-- Ticket creation preserves the at-most-one-Open invariant. -/
theorem create_preserves_invariant (ts : List Ticket) (sid : ℕ) (issue : String)
    (sev : Severity) (h : atMostOneOpen ts) :
    atMostOneOpen (createMaintenanceTicket ts sid issue sev).1 := by
  unfold createMaintenanceTicket
  cases hfind : openTicketForSensor ts sid with
  | some t => exact h
  | none =>
      intro t1 ht1 t2 ht2 h1 h2 hsid
      have hnone : ∀ x ∈ ts, ¬ (x.sensorId = sid ∧ x.status = "Open") := by
        intro x hx
        have hfx := List.find?_eq_none.mp hfind x hx
        simpa using hfx
      rw [List.mem_append, List.mem_singleton] at ht1 ht2
      rcases ht1 with ht1 | ht1 <;> rcases ht2 with ht2 | ht2
      · exact h t1 ht1 t2 ht2 h1 h2 hsid
      · exfalso
        apply hnone t1 ht1
        refine ⟨?_, h1⟩
        rw [hsid, ht2]
      · exfalso
        apply hnone t2 ht2
        refine ⟨?_, h2⟩
        rw [← hsid, ht1]
      · rw [ht1, ht2]

/-- A status update that never writes the literal Open status preserves the
at-most-one-Open invariant. -/
theorem update_preserves_invariant (ts : List Ticket) (tid : ℕ) (s : String)
    (now : ℕ) (hs : s ≠ "Open") (h : atMostOneOpen ts) :
    atMostOneOpen (updateTicketStatus ts tid s now) := by
  intro t1 ht1 t2 ht2 h1 h2 hsid
  unfold updateTicketStatus at ht1 ht2
  rcases List.mem_map.mp ht1 with ⟨u1, hu1, he1⟩
  rcases List.mem_map.mp ht2 with ⟨u2, hu2, he2⟩
  have k1 : t1 = u1 := by
    by_cases hc : u1.tid = tid
    · exfalso
      apply hs
      rw [← h1, ← he1]
      unfold applyStatus
      rw [if_pos hc]
    · rw [← he1]
      unfold applyStatus
      rw [if_neg hc]
  have k2 : t2 = u2 := by
    by_cases hc : u2.tid = tid
    · exfalso
      apply hs
      rw [← h2, ← he2]
      unfold applyStatus
      rw [if_pos hc]
    · rw [← he2]
      unfold applyStatus
      rw [if_neg hc]
  rw [k1, k2]
  exact h u1 hu1 u2 hu2 (k1 ▸ h1) (k2 ▸ h2) (by rw [← k1, ← k2]; exact hsid)

/-- The ticket request of a verdict is exactly the guard of the source:
status Anomalous and no FieldEvent root cause. -/
theorem evalCore_ticketRequest (l : Reading) (r : List Reading)
    (zs : List (List Reading)) (tr : List TrustLite) :
    (evalCore l r zs tr).ticketRequest =
      (if (evalCore l r zs tr).status = Status.Anomalous ∧
          RootCause.FIELD_EVENT ∉ (evalCore l r zs tr).rootCauses then
        some ⟨(evalCore l r zs tr).severity, (evalCore l r zs tr).score⟩
      else none) := rfl

/-- Counterexample to C4 as stated: through the unrestricted status update of
the ticket route, a store holding two Open tickets for sensor 0 is reachable
(create, resolve, create again, then re-open the resolved ticket). -/
theorem open_ticket_invariant_C4_counterexample :
    TicketReachable c4bad ∧ ¬ atMostOneOpen c4bad := by
  constructor
  · have s1 : TicketStep [] c4s1 := TicketStep.create [] 0 "i1" .High
    have s2 : TicketStep c4s1 c4s2 := TicketStep.update c4s1 0 "Resolved" 5
    have s3 : TicketStep c4s2 c4s3 := TicketStep.create c4s2 0 "i2" .High
    have s4 : TicketStep c4s3 c4bad := TicketStep.update c4s3 0 "Open" 9
    exact Relation.ReflTransGen.tail
      (Relation.ReflTransGen.tail
        (Relation.ReflTransGen.tail (Relation.ReflTransGen.single s1) s2) s3) s4
  · decide

/-- Claim C4 as amended: every store reachable without an update that writes
the literal Open status keeps at most one Open ticket per sensor; when an
Open ticket exists, ticket creation returns it and changes nothing; and the
scorer requests a ticket only when the verdict status is Anomalous and the
root causes do not contain FieldEvent. -/
theorem open_ticket_invariant_C4_amended :
    (∀ ts, SafeTicketReachable ts → atMostOneOpen ts) ∧
    (∀ ts sid issue sev t, openTicketForSensor ts sid = some t →
      createMaintenanceTicket ts sid issue sev = (ts, t)) ∧
    (∀ (l : Reading) (r : List Reading) (zs : List (List Reading)) (tr : List TrustLite),
      ((evalCore l r zs tr).ticketRequest).isSome = true →
      (evalCore l r zs tr).status = Status.Anomalous ∧
        RootCause.FIELD_EVENT ∉ (evalCore l r zs tr).rootCauses) := by
  refine ⟨?_, ?_, ?_⟩
  · intro ts hreach
    induction hreach with
    | refl =>
        intro t1 ht1
        exact absurd ht1 (List.not_mem_nil t1)
    | tail hsteps hstep ih =>
        cases hstep with
        | create sid issue sev => exact create_preserves_invariant _ sid issue sev ih
        | update tid s now hne => exact update_preserves_invariant _ tid s now hne ih
  · intro ts sid issue sev t h
    unfold createMaintenanceTicket
    rw [h]
  · intro l r zs tr hsome
    rw [evalCore_ticketRequest] at hsome
    by_cases hc : (evalCore l r zs tr).status = Status.Anomalous ∧
        RootCause.FIELD_EVENT ∉ (evalCore l r zs tr).rootCauses
    · exact hc
    · rw [if_neg hc] at hsome
      simp at hsome

/-- Witness for C4: the empty store satisfies the invariant, and creation
against an existing Open ticket is the identity. -/
theorem open_ticket_invariant_C4_witness :
    atMostOneOpen ([] : List Ticket) ∧
    createMaintenanceTicket c4wts 0 "x" Severity.High = (c4wts, c4wt) :=
  ⟨open_ticket_invariant_C4_amended.1 [] Relation.ReflTransGen.refl,
    open_ticket_invariant_C4_amended.2.1 c4wts 0 "x" Severity.High c4wt (by decide)⟩

/-- Counterexample to C5 as stated: calling ticket creation for a sensor
with an existing Open ticket of severity Low and a new severity Critical
leaves the stored severity Low (not the maximum, Critical) and the stored
issue unchanged. -/
theorem duplicate_ticket_update_C5_counterexample :
    ((createMaintenanceTicket c5store 3 "new" Severity.Critical).1.map Ticket.severity
        = [Severity.Low]) ∧
    ((createMaintenanceTicket c5store 3 "new" Severity.Critical).1.map Ticket.issue
        = ["old"]) ∧
    sevRank Severity.Low < sevRank Severity.Critical := by
  refine ⟨?_, ?_, by decide⟩ <;> rfl

/-- Claim C5 as amended: when an Open ticket exists for the sensor,
`createMaintenanceTicket` returns that ticket and leaves the store entirely
unchanged — neither issue nor severity is modified — and no duplicate ticket
is created. -/
theorem duplicate_ticket_update_C5_amended (ts : List Ticket) (sid : ℕ)
    (issue : String) (sev : Severity) (t : Ticket)
    (h : openTicketForSensor ts sid = some t) :
    createMaintenanceTicket ts sid issue sev = (ts, t) := by
  unfold createMaintenanceTicket
  rw [h]

/-- Witness for C5: applied to the concrete one-ticket store. -/
theorem duplicate_ticket_update_C5_witness :
    createMaintenanceTicket c5store 3 "x" Severity.High = (c5store, c5t) :=
  duplicate_ticket_update_C5_amended c5store 3 "x" Severity.High c5t (by decide)

/-- Counterexample to C8 as stated: a Resolved ticket transitions back to
Open through the status update. -/
theorem ticket_status_machine_C8_counterexample :
    (updateTicketStatus [c8t] 3 "Open" 9).map Ticket.status = ["Open"] ∧
    c8t.status = "Resolved" ∧ ("Open" : String) ≠ "Resolved" := by
  refine ⟨rfl, rfl, by decide⟩

/-- Claim C8 as amended: the status update applies any requested status
unconditionally (no transition restriction, so transitions out of Resolved
are admitted); the matching ticket receives the requested status with
`resolvedAt` set to the current time exactly when the new status is
Resolved, all other tickets are unchanged, and no ticket is created or
deleted. -/
theorem ticket_status_machine_C8_amended (ts : List Ticket) (tid : ℕ)
    (s : String) (now : ℕ) :
    (updateTicketStatus ts tid s now).length = ts.length ∧
    (∀ t ∈ ts, t.tid ≠ tid → t ∈ updateTicketStatus ts tid s now) ∧
    (∀ t ∈ ts, t.tid = tid →
      { t with status := s,
               resolvedAt := if s = "Resolved" then some now else t.resolvedAt }
        ∈ updateTicketStatus ts tid s now) := by
  refine ⟨by simp [updateTicketStatus], ?_, ?_⟩
  · intro t ht hne
    unfold updateTicketStatus
    rw [List.mem_map]
    refine ⟨t, ht, ?_⟩
    show applyStatus t tid s now = t
    unfold applyStatus
    rw [if_neg hne]
  · intro t ht heq
    unfold updateTicketStatus
    rw [List.mem_map]
    refine ⟨t, ht, ?_⟩
    show applyStatus t tid s now = _
    unfold applyStatus
    rw [if_pos heq]

/-- Witness for C8: re-opening the concrete Resolved ticket. -/
theorem ticket_status_machine_C8_witness :
    ({ c8t with status := "Open",
                resolvedAt := if ("Open" : String) = "Resolved" then some 9
                  else c8t.resolvedAt }
      ∈ updateTicketStatus [c8t] 3 "Open" 9) :=
  (ticket_status_machine_C8_amended [c8t] 3 "Open" 9).2.2 c8t (by decide) (by decide)

/-- Counterexample to C9 as stated: with fewer than three recent results the
code reports the trend string stable, not unknown. -/
theorem health_trend_unknown_C9_counterexample :
    (computeHealthTrend c9two).trend = "stable" ∧ ("stable" : String) ≠ "unknown" :=
  ⟨rfl, by decide⟩

/-- Claim C9 as amended: with fewer than 3 recent results the trend is
stable with slope 0 and anomaly rate 0; otherwise the trend is improving
when the regression slope of the scores exceeds 0.01, degrading when it is
below -0.01 and stable otherwise, the stored slope is the regression slope
rounded to four digits, and the anomaly rate is the fraction of Anomalous
results rounded to two digits. -/
theorem health_trend_C9_amended (l : List TrustLite) :
    (l.length < 3 → computeHealthTrend l = ⟨"stable", 0, 0⟩) ∧
    (3 ≤ l.length → computeHealthTrend l =
      ⟨(if 0.01 < linearSlope (l.map TrustLite.score) then "improving"
        else if linearSlope (l.map TrustLite.score) < -0.01 then "degrading"
        else "stable"),
        roundTo 4 (linearSlope (l.map TrustLite.score)),
        roundTo 2 (((l.filter (fun t => decide (t.status = Status.Anomalous))).length : ℚ)
          / l.length)⟩) := by
  constructor
  · intro h
    unfold computeHealthTrend
    rw [if_pos h]
  · intro h
    unfold computeHealthTrend
    rw [if_neg (by omega)]

/-- Witness for C9: the amended characterisation applied to three concrete
results. -/
theorem health_trend_C9_witness :
    computeHealthTrend c9three =
      ⟨(if 0.01 < linearSlope (c9three.map TrustLite.score) then "improving"
        else if linearSlope (c9three.map TrustLite.score) < -0.01 then "degrading"
        else "stable"),
        roundTo 4 (linearSlope (c9three.map TrustLite.score)),
        roundTo 2 (((c9three.filter
            (fun t => decide (t.status = Status.Anomalous))).length : ℚ)
          / c9three.length)⟩ :=
  (health_trend_C9_amended c9three).2 (by decide)

/-- Claim C10, evaluated at the failing input: registering a fresh sensor on
the empty store creates the sensor row and an initial trust score row with
status Healthy but score 100.0 — not the 1.0 the specification states for
the 0-to-1 trust scale — and registering the same external id again fails
with DuplicateId without touching the store. -/
theorem register_sensor_initial_score_C10 :
    registerSensor regEmpty "S1" "z1" "soil"
      = .ok (⟨[⟨0, "S1", "z1", "soil"⟩], [⟨0, 100, .Healthy⟩], [], []⟩, 0) ∧
    (100 : ℚ) ≠ 1 ∧
    registerSensor regOne "S1" "z2" "soil" = .error .DuplicateId := by
  refine ⟨rfl, by norm_num, rfl⟩

end STVE
